import Mathlib

/-
Verification of the generic caching + rollback layer of an e-commerce
backend (TypeScript sources: GenericRepository, UserRepository,
GenericService, UserService, AuthenticationService, PasswordService).

Modelling conventions:
* The Redis cache facade (utils/cacheConfig) is explicit state: an
  association list from keys to serialized string values.  `set`
  overwrites, `delete` removes, `get` looks up.  TTLs are recorded in
  the effect trace only (the facade passes them to Redis verbatim and
  never reads them back).
* The TypeORM backing store is an oracle (`Store`): each primitive
  (save / findOneBy / update / delete / find / findAndCount) is a
  function returning `Except String` — `.error` models a rejected
  promise, exactly as the repository's unit tests drive the mocked
  `repo` object.  Errors carry their message string.
* Every modelled operation additionally returns a chronological list of
  `Eff` values recording each cache-facade call, backing-store call,
  Cognito (identity-provider) call and KMS encryption call it performs,
  so frame properties ("no cache call happens", "exactly one delete is
  issued") are statements about the trace.
* `JSON.stringify` / `JSON.parse` are an abstract serializer
  (`EntityOps`): `serEnt` is stringify, `deserEnt` is parse (returning
  `none` when parsing throws).  Loggers are pure no-ops.
-/

/-- One observable side effect of a repository / service operation. -/
inductive Eff where
  | cacheGet (key : String)
  | cacheSet (key value : String) (ttl : Nat)
  | cacheDelete (key : String)
  | storeSave
  | storeFind (id : Nat)
  | storeUpdate (id : Nat)
  | storeDelete (id : Nat)
  | storeFindAll
  | storeFindAndCount (skip tak : Nat)
  | storeFindByUsername (username : String)
  | cogRegister (username : String)
  | cogAuthenticate (username : String)
  | cogConfirm (username : String)
  | cogInitiateReset (username : String)
  | cogCompleteReset (username : String)
  | encryptCall
  deriving DecidableEq, Repr

/-- True for calls into the cache facade (get / set / delete). -/
def Eff.isCacheOp : Eff → Bool
  | .cacheGet _ => true
  | .cacheSet _ _ _ => true
  | .cacheDelete _ => true
  | _ => false

/-- True for compensating actions: a cache eviction or a backing-store
delete.  (The code base contains no identity-provider rollback API at
all; its "Cognito rollback" branch is itself a cache delete.) -/
def Eff.isCompensating : Eff → Bool
  | .cacheDelete _ => true
  | .storeDelete _ => true
  | _ => false

/-- The Redis cache facade state: keys mapped to serialized values. -/
abbrev Cache := List (String × String)

/-- cache.get — first binding for the key, if any. -/
def cacheGet : Cache → String → Option String
  | [], _ => none
  | (k, v) :: rest, key => if k = key then some v else cacheGet rest key

/-- cache.set — overwrite the binding for the key. -/
def cacheSet (c : Cache) (key value : String) : Cache :=
  (key, value) :: c.filter (fun p => p.1 ≠ key)

/-- cache.delete — remove the binding for the key. -/
def cacheDel (c : Cache) (key : String) : Cache :=
  c.filter (fun p => p.1 ≠ key)

/-- The optional per-call cache directive (utils/cacheModel). -/
structure CacheModel where
  key : String
  expiration : Nat

/-- Oracle for the TypeORM repository primitives over entity type `T`
with update payloads of type `P` (the `Partial<T>` argument).
`.error` models a rejected promise. -/
structure Store (T P : Type) where
  save : T → Except String T
  findOneBy : Nat → Except String (Option T)
  update : Nat → P → Except String Unit
  delete : Nat → Except String Nat
  find : Except String (List T)
  findAndCount : Nat → Nat → Except String (List T × Nat)

/-- Entity-specific helpers: the id accessor and the JSON serializer
for single entities, lists, and paginated results. -/
structure EntityOps (T : Type) where
  getId : T → Nat
  serEnt : T → String
  deserEnt : String → Option T
  serList : List T → String
  deserList : String → Option (List T)
  deserPage : String → Option (List T × Nat)

namespace GenericRepository

variable {T P : Type}

/-- GenericRepository.createEntity: save to the store; on success, if a
cacheModel was given and the key is absent, cache the serialized INPUT
entity (not the persisted one); on a store throw, swallow and return
null. -/
def createEntity (st : Store T P) (ops : EntityOps T) (cm : Option CacheModel)
    (e : T) (c : Cache) : Option T × Cache × List Eff :=
  match st.save e with
  | .error _ => (none, c, [.storeSave])
  | .ok saved =>
    match cm with
    | none => (some saved, c, [.storeSave])
    | some m =>
      match cacheGet c m.key with
      | some _ => (some saved, c, [.storeSave, .cacheGet m.key])
      | none =>
        (some saved, cacheSet c m.key (ops.serEnt e),
          [.storeSave, .cacheGet m.key,
            .cacheSet m.key (ops.serEnt e) m.expiration])

/-- GenericRepository.findEntityById: with a cacheModel, return a cache
hit immediately (JSON.parse of the cached string; a parse throw is
swallowed to null by the outer catch); otherwise read the store,
convert not-found / throw to null, and on a hit populate the cache when
a cacheModel was given. -/
def findEntityById (st : Store T P) (ops : EntityOps T) (cm : Option CacheModel)
    (id : Nat) (c : Cache) : Option T × Cache × List Eff :=
  match cm with
  | some m =>
    match cacheGet c m.key with
    | some s => (ops.deserEnt s, c, [.cacheGet m.key])
    | none =>
      match st.findOneBy id with
      | .error _ => (none, c, [.cacheGet m.key, .storeFind id])
      | .ok none => (none, c, [.cacheGet m.key, .storeFind id])
      | .ok (some e) =>
        (some e, cacheSet c m.key (ops.serEnt e),
          [.cacheGet m.key, .storeFind id,
            .cacheSet m.key (ops.serEnt e) m.expiration])
  | none =>
    match st.findOneBy id with
    | .error _ => (none, c, [.storeFind id])
    | .ok none => (none, c, [.storeFind id])
    | .ok (some e) => (some e, c, [.storeFind id])

/-- GenericRepository.deleteEntity: store delete; zero affected rows is
treated as a throw; any throw is swallowed to false; on success with a
cacheModel the cache key is evicted. -/
def deleteEntity (st : Store T P) (cm : Option CacheModel) (id : Nat)
    (c : Cache) : Bool × Cache × List Eff :=
  match st.delete id with
  | .error _ => (false, c, [.storeDelete id])
  | .ok affected =>
    if affected = 0 then (false, c, [.storeDelete id])
    else
      match cm with
      | none => (true, c, [.storeDelete id])
      | some m => (true, cacheDel c m.key, [.storeDelete id, .cacheDelete m.key])

/-- The catch block of GenericRepository.updateEntity: re-find the
entity by id (no cacheModel), and if it is still there, delete it as a
compensating action; return null either way.  `t` is the trace
accumulated before the throw. -/
def updateRollback (st : Store T P) (ops : EntityOps T) (id : Nat)
    (c : Cache) (t : List Eff) : Option T × Cache × List Eff :=
  match findEntityById st ops none id c with
  | (none, c2, t2) => (none, c2, t ++ t2)
  | (some f, c2, t2) =>
    match deleteEntity st none (ops.getId f) c2 with
    | (_, c3, t3) => (none, c3, t ++ t2 ++ t3)

/-- GenericRepository.updateEntity: store update, then a cache-bypassing
re-read for canonical state; not-found after update is a throw.  On any
throw the catch block (`updateRollback`) runs.  On success with a
cacheModel, refresh the cache with the canonical entity. -/
def updateEntity (st : Store T P) (ops : EntityOps T) (cm : Option CacheModel)
    (id : Nat) (data : P) (c : Cache) : Option T × Cache × List Eff :=
  match st.update id data with
  | .error _ => updateRollback st ops id c [.storeUpdate id]
  | .ok _ =>
    match findEntityById st ops none id c with
    | (none, c1, t1) => updateRollback st ops id c1 (.storeUpdate id :: t1)
    | (some u, c1, t1) =>
      match cm with
      | none => (some u, c1, .storeUpdate id :: t1)
      | some m =>
        (some u, cacheSet c1 m.key (ops.serEnt u),
          .storeUpdate id :: t1 ++ [.cacheSet m.key (ops.serEnt u) m.expiration])

/-- GenericRepository.getAllEntities: cache-first when a cacheModel is
given (a parse throw propagates — this method has no try/catch), else
read the store (a store throw propagates) and populate the cache when a
cacheModel was given. -/
def getAllEntities (st : Store T P) (ops : EntityOps T) (cm : Option CacheModel)
    (c : Cache) : Except String (List T) × Cache × List Eff :=
  match cm with
  | some m =>
    match cacheGet c m.key with
    | some s =>
      match ops.deserList s with
      | some l => (.ok l, c, [.cacheGet m.key])
      | none => (.error "JSON.parse", c, [.cacheGet m.key])
    | none =>
      match st.find with
      | .error msg => (.error msg, c, [.cacheGet m.key, .storeFindAll])
      | .ok es =>
        (.ok es, cacheSet c m.key (ops.serList es),
          [.cacheGet m.key, .storeFindAll,
            .cacheSet m.key (ops.serList es) m.expiration])
  | none =>
    match st.find with
    | .error msg => (.error msg, c, [.storeFindAll])
    | .ok es => (.ok es, c, [.storeFindAll])

/-- GenericRepository.getEntitiesWithPagination: cache-first when a
cacheModel is given; on a miss, findAndCount with `{skip, take}` and
return without populating the cache (the documented asymmetry). -/
def getEntitiesWithPagination (st : Store T P) (ops : EntityOps T)
    (cm : Option CacheModel) (skip tak : Nat) (c : Cache) :
    Except String (List T × Nat) × Cache × List Eff :=
  match cm with
  | some m =>
    match cacheGet c m.key with
    | some s =>
      match ops.deserPage s with
      | some pr => (.ok pr, c, [.cacheGet m.key])
      | none => (.error "JSON.parse", c, [.cacheGet m.key])
    | none =>
      match st.findAndCount skip tak with
      | .error msg => (.error msg, c, [.cacheGet m.key, .storeFindAndCount skip tak])
      | .ok pr => (.ok pr, c, [.cacheGet m.key, .storeFindAndCount skip tak])
  | none =>
    match st.findAndCount skip tak with
    | .error msg => (.error msg, c, [.storeFindAndCount skip tak])
    | .ok pr => (.ok pr, c, [.storeFindAndCount skip tak])

end GenericRepository

/-- The User entity (entities/User): numeric id plus domain fields. -/
structure User where
  id : Nat
  username : String
  password : String
  email : String
  deriving DecidableEq, Repr

/-- Oracles for the external collaborators of the domain services: the
Cognito adapter functions (utils/cognitoConfig) and the SSM+KMS
password-encryption pipeline (PasswordService.getPasswordEncrypted).
`.error` models a rejected promise carrying its message. -/
structure UserEnv where
  cognitoRegister : String → String → String → Except String Unit
  cognitoAuthenticate : String → String → Except String (Option String)
  cognitoConfirm : String → String → Except String Unit
  cognitoInitiate : String → Except String Unit
  cognitoComplete : String → String → String → Except String Unit
  encrypt : String → Except String String

/-- The User backing store: the generic primitives plus the
findOneBy({username}) lookup used by UserRepository. -/
structure UserStore extends Store User String where
  findByUsername : String → Except String (Option User)

namespace AuthenticationService

/-- AuthenticationService.registerUser (services/AuthenticationService):
calls the Cognito register function; on a throw the catch block runs
with cognitoUserCreated = false (the flag is set only after the await
resolves), so it performs only the unconditional cache delete of
`user:<username>` and RETURNS NORMALLY — the error is not re-raised. -/
def registerUser (env : UserEnv) (username password email : String)
    (c : Cache) : Except String Unit × Cache × List Eff :=
  match env.cognitoRegister username password email with
  | .ok _ => (.ok (), c, [.cogRegister username])
  | .error _ =>
    (.ok (), cacheDel c ("user:" ++ username),
      [.cogRegister username, .cacheDelete ("user:" ++ username)])

/-- AuthenticationService.authenticateUser: calls the Cognito
authenticate function (a throw propagates); a missing token raises
"Authentication failed". -/
def authenticateUser (env : UserEnv) (username password : String) :
    Except String String × List Eff :=
  match env.cognitoAuthenticate username password with
  | .error m => (.error m, [.cogAuthenticate username])
  | .ok none => (.error "Authentication failed", [.cogAuthenticate username])
  | .ok (some t) => (.ok t, [.cogAuthenticate username])

/-- AuthenticationService.confirmUserRegistration: pass-through to the
Cognito confirm function; a throw propagates. -/
def confirmUserRegistration (env : UserEnv) (username code : String) :
    Except String Unit × List Eff :=
  match env.cognitoConfirm username code with
  | .error m => (.error m, [.cogConfirm username])
  | .ok _ => (.ok (), [.cogConfirm username])

end AuthenticationService

namespace PasswordService

/-- PasswordService.getPasswordEncrypted: SSM key fetch + KMS encrypt,
modelled as the single `encrypt` oracle; a throw propagates. -/
def getPasswordEncrypted (env : UserEnv) (pw : String) :
    Except String String × List Eff :=
  (env.encrypt pw, [.encryptCall])

/-- PasswordService.initiateUserPasswordReset: catches a Cognito throw
and re-raises the fixed message "Failed to initiate password reset". -/
def initiateUserPasswordReset (env : UserEnv) (username : String) :
    Except String Unit × List Eff :=
  match env.cognitoInitiate username with
  | .ok _ => (.ok (), [.cogInitiateReset username])
  | .error _ =>
    (.error "Failed to initiate password reset", [.cogInitiateReset username])

/-- PasswordService.completeUserPasswordReset: pass-through to the
Cognito forgot-password confirmation; a throw propagates.  (The three
string arguments flow to Cognito in call order.) -/
def completeUserPasswordReset (env : UserEnv) (a b d : String) :
    Except String Unit × List Eff :=
  match env.cognitoComplete a b d with
  | .error m => (.error m, [.cogCompleteReset a])
  | .ok _ => (.ok (), [.cogCompleteReset a])

end PasswordService

namespace UserRepository

/-- UserRepository.findUserByUsername: findOneBy({username}); not-found
is raised internally, and any throw is caught and converted to null. -/
def findUserByUsername (ust : UserStore) (username : String) :
    Option User × List Eff :=
  match ust.findByUsername username with
  | .ok (some u) => (some u, [.storeFindByUsername username])
  | .ok none => (none, [.storeFindByUsername username])
  | .error _ => (none, [.storeFindByUsername username])

end UserRepository

namespace UserService

/-- UserService.save: registerUser (which never throws — it swallows
Cognito failures), then encrypt the password, then createEntity on the
user repository with the INPUT username/email and the encrypted
password (the TS object literal has no id; modelled as id 0).  Any
raised error is caught and re-raised as "Registration failed".
createEntity itself never throws, so its null result is returned
as-is. -/
def save (env : UserEnv) (ust : UserStore) (ops : EntityOps User)
    (e : User) (cm : Option CacheModel) (c : Cache) :
    Except String (Option User) × Cache × List Eff :=
  match AuthenticationService.registerUser env e.username e.password e.email c with
  | (.error _, c1, t1) => (.error "Registration failed", c1, t1)
  | (.ok _, c1, t1) =>
    match PasswordService.getPasswordEncrypted env e.password with
    | (.error _, t2) => (.error "Registration failed", c1, t1 ++ t2)
    | (.ok enc, t2) =>
      match GenericRepository.createEntity ust.toStore ops cm
          (User.mk 0 e.username enc e.email) c1 with
      | (r, c2, t3) => (.ok r, c2, t1 ++ t2 ++ t3)

/-- UserService.confirmRegistration: any raised error becomes the fixed
"User confirmation failed". -/
def confirmRegistration (env : UserEnv) (username code : String) :
    Except String Unit × List Eff :=
  match AuthenticationService.confirmUserRegistration env username code with
  | (.error _, t) => (.error "User confirmation failed", t)
  | (.ok r, t) => (.ok r, t)

/-- UserService.authenticate: Cognito token via authenticateUser, then
resolve the user from cache `user:<username>` or the repository
(populating the cache with TTL 3600 on a miss); an unresolvable user is
a failure.  Every raised error becomes the fixed message
"Authentication failed: Invalid username or password". -/
def authenticate (env : UserEnv) (ust : UserStore) (ops : EntityOps User)
    (username password : String) (c : Cache) :
    Except String String × Cache × List Eff :=
  match AuthenticationService.authenticateUser env username password with
  | (.error _, t0) =>
    (.error "Authentication failed: Invalid username or password", c, t0)
  | (.ok tok, t0) =>
    match cacheGet c ("user:" ++ username) with
    | some s =>
      match ops.deserEnt s with
      | some _ => (.ok tok, c, t0 ++ [.cacheGet ("user:" ++ username)])
      | none =>
        (.error "Authentication failed: Invalid username or password", c,
          t0 ++ [.cacheGet ("user:" ++ username)])
    | none =>
      match UserRepository.findUserByUsername ust username with
      | (none, t1) =>
        (.error "Authentication failed: Invalid username or password", c,
          t0 ++ [.cacheGet ("user:" ++ username)] ++ t1)
      | (some u, t1) =>
        (.ok tok, cacheSet c ("user:" ++ username) (ops.serEnt u),
          t0 ++ [.cacheGet ("user:" ++ username)] ++ t1
            ++ [.cacheSet ("user:" ++ username) (ops.serEnt u) 3600])

/-- UserService.initiatePasswordReset: any raised error becomes the
fixed "Failed to initiate password reset" (the inner PasswordService
catch already raises the same string). -/
def initiatePasswordReset (env : UserEnv) (username : String) :
    Except String Unit × List Eff :=
  match PasswordService.initiateUserPasswordReset env username with
  | (.error _, t) => (.error "Failed to initiate password reset", t)
  | (.ok _, t) => (.ok (), t)

/-- UserService.completePasswordReset: validate inputs, complete the
reset in Cognito, re-encrypt, locate the user, and update the password
through the generic repository (no cacheModel; updateEntity never
throws and its result is not checked).  Every raised error becomes the
fixed "Failed to complete password reset". -/
def completePasswordReset (env : UserEnv) (ust : UserStore)
    (ops : EntityOps User) (username newPassword code : String) (c : Cache) :
    Except String Unit × Cache × List Eff :=
  if username = "" ∨ newPassword = "" ∨ code = "" then
    (.error "Failed to complete password reset", c, [])
  else
    match PasswordService.completeUserPasswordReset env username newPassword code with
    | (.error _, t0) => (.error "Failed to complete password reset", c, t0)
    | (.ok _, t0) =>
      match PasswordService.getPasswordEncrypted env newPassword with
      | (.error _, t1) => (.error "Failed to complete password reset", c, t0 ++ t1)
      | (.ok enc, t1) =>
        match UserRepository.findUserByUsername ust username with
        | (none, t2) =>
          (.error "Failed to complete password reset", c, t0 ++ t1 ++ t2)
        | (some u, t2) =>
          match GenericRepository.updateEntity ust.toStore ops none u.id enc c with
          | (_, c2, t3) => (.ok (), c2, t0 ++ t1 ++ t2 ++ t3)

end UserService

section RepositoryLemmas

variable {T P : Type}

/-- Reading a key just written returns the written value. -/
theorem cacheGet_cacheSet_self (c : Cache) (k v : String) :
    cacheGet (cacheSet c k v) k = some v := by
  simp [cacheGet, cacheSet]

namespace GenericRepository

/-- Equation: cache-bypassing find when the store returns the entity. -/
theorem findEntityById_none_found (st : Store T P) (ops : EntityOps T)
    (id : Nat) (c : Cache) (e : T) (h : st.findOneBy id = .ok (some e)) :
    findEntityById st ops none id c = (some e, c, [.storeFind id]) := by
  simp [findEntityById, h]

/-- Equation: cache-bypassing find when the store reports not-found. -/
theorem findEntityById_none_notfound (st : Store T P) (ops : EntityOps T)
    (id : Nat) (c : Cache) (h : st.findOneBy id = .ok none) :
    findEntityById st ops none id c = (none, c, [.storeFind id]) := by
  simp [findEntityById, h]

/-- Equation: cache-bypassing find when the store read throws. -/
theorem findEntityById_none_err (st : Store T P) (ops : EntityOps T)
    (id : Nat) (c : Cache) (msg : String) (h : st.findOneBy id = .error msg) :
    findEntityById st ops none id c = (none, c, [.storeFind id]) := by
  simp [findEntityById, h]

/-- Without a cacheModel, deleteEntity only performs the single store
delete: the cache is untouched whatever the store answers. -/
theorem deleteEntity_none_shape (st : Store T P) (id : Nat) (c : Cache) :
    ∃ b, deleteEntity st none id c = (b, c, [.storeDelete id]) := by
  cases h : st.delete id with
  | error m => exact ⟨false, by simp [deleteEntity, h]⟩
  | ok affected =>
    by_cases ha : affected = 0
    · exact ⟨false, by simp [deleteEntity, h, ha]⟩
    · exact ⟨true, by simp [deleteEntity, h, ha]⟩

/-- The rollback block when the re-read still finds the entity: one
compensating store delete for that entity's id, cache untouched. -/
theorem updateRollback_found (st : Store T P) (ops : EntityOps T)
    (id : Nat) (c : Cache) (t : List Eff) (f : T)
    (h : st.findOneBy id = .ok (some f)) :
    updateRollback st ops id c t =
      (none, c, t ++ [.storeFind id, .storeDelete (ops.getId f)]) := by
  obtain ⟨b, hb⟩ := deleteEntity_none_shape st (ops.getId f) c
  simp [updateRollback, findEntityById_none_found st ops id c f h, hb]

/-- The rollback block when the re-read finds nothing: no delete. -/
theorem updateRollback_notfound (st : Store T P) (ops : EntityOps T)
    (id : Nat) (c : Cache) (t : List Eff) (h : st.findOneBy id = .ok none) :
    updateRollback st ops id c t = (none, c, t ++ [.storeFind id]) := by
  simp [updateRollback, findEntityById_none_notfound st ops id c h]

/-- The rollback block when the re-read itself throws: no delete. -/
theorem updateRollback_err (st : Store T P) (ops : EntityOps T)
    (id : Nat) (c : Cache) (t : List Eff) (msg : String)
    (h : st.findOneBy id = .error msg) :
    updateRollback st ops id c t = (none, c, t ++ [.storeFind id]) := by
  simp [updateRollback, findEntityById_none_err st ops id c msg h]

/-- updateEntity when the store update throws and the entity is still
found: full equation, any cacheModel. -/
theorem updateEntity_uerr_found (st : Store T P) (ops : EntityOps T)
    (cm : Option CacheModel) (id : Nat) (data : P) (c : Cache)
    (msg : String) (f : T) (hu : st.update id data = .error msg)
    (hf : st.findOneBy id = .ok (some f)) :
    updateEntity st ops cm id data c =
      (none, c, [.storeUpdate id, .storeFind id, .storeDelete (ops.getId f)]) := by
  simp [updateEntity, hu, updateRollback_found st ops id c [.storeUpdate id] f hf]

/-- updateEntity when the store update throws and no entity is found. -/
theorem updateEntity_uerr_notfound (st : Store T P) (ops : EntityOps T)
    (cm : Option CacheModel) (id : Nat) (data : P) (c : Cache)
    (msg : String) (hu : st.update id data = .error msg)
    (hf : st.findOneBy id = .ok none) :
    updateEntity st ops cm id data c =
      (none, c, [.storeUpdate id, .storeFind id]) := by
  simp [updateEntity, hu, updateRollback_notfound st ops id c [.storeUpdate id] hf]

/-- updateEntity when the store update throws and the re-read throws. -/
theorem updateEntity_uerr_finderr (st : Store T P) (ops : EntityOps T)
    (cm : Option CacheModel) (id : Nat) (data : P) (c : Cache)
    (msg msg2 : String) (hu : st.update id data = .error msg)
    (hf : st.findOneBy id = .error msg2) :
    updateEntity st ops cm id data c =
      (none, c, [.storeUpdate id, .storeFind id]) := by
  simp [updateEntity, hu, updateRollback_err st ops id c [.storeUpdate id] msg2 hf]

end GenericRepository

end RepositoryLemmas

/-- Result of an operation leaves the cache state unchanged and its
trace contains no cache-facade call. -/
def cacheUntouched {α : Type} (r : α × Cache × List Eff) (c : Cache) : Prop :=
  r.2.1 = c ∧ r.2.2.all (fun x => !x.isCacheOp) = true

/-- Serializer instance for the witness entity type Nat: an injective
unary string encoding with an exact parse (kernel-reducible stand-in
for JSON stringify / parse). -/
def natOps : EntityOps Nat :=
  ⟨fun n => n, fun n => String.mk (List.replicate n 'x'),
    fun s => some s.data.length, fun _ => "", fun _ => none, fun _ => none⟩

/-- Witness store: update throws, the entity (value 5) is still found. -/
def stUpdThrow : Store Nat Unit :=
  ⟨fun n => .ok n, fun _ => .ok (some 5), fun _ _ => .error "update failed",
    fun _ => .ok 1, .ok [], fun _ _ => .ok ([], 0)⟩

/-- Witness store: update throws and the entity is gone afterwards. -/
def stUpdThrowGone : Store Nat Unit :=
  ⟨fun n => .ok n, fun _ => .ok none, fun _ _ => .error "update failed",
    fun _ => .ok 1, .ok [], fun _ _ => .ok ([], 0)⟩

/-- Witness store: save succeeds but persists a mutated entity (a
store-assigned value n + 2), as an insert with a generated id would. -/
def stMutSave : Store Nat Unit :=
  ⟨fun n => .ok (n + 2), fun _ => .ok none, fun _ _ => .ok (),
    fun _ => .ok 1, .ok [], fun _ _ => .ok ([], 0)⟩

/-- Witness store: delete reports zero affected rows. -/
def stDelZero : Store Nat Unit :=
  ⟨fun n => .ok n, fun _ => .ok none, fun _ _ => .ok (),
    fun _ => .ok 0, .ok [], fun _ _ => .ok ([], 0)⟩

/-- Witness store: findAndCount returns one row and count 7. -/
def stPage : Store Nat Unit :=
  ⟨fun n => .ok n, fun _ => .ok none, fun _ _ => .ok (),
    fun _ => .ok 1, .ok [], fun _ _ => .ok ([3], 7)⟩

/-- Claim C1: if the backing store's update call throws, updateEntity
runs its catch block: it re-finds the entity with a cache-bypassing
findEntityById; if the entity is found it issues exactly one
compensating store delete for that entity's id and returns null, and if
nothing is found (or the re-read throws) it issues no delete and still
returns null.  The exact result equations show the trace verbatim. -/
theorem updateEntity_failedUpdate_compensates {T P : Type} (st : Store T P)
    (ops : EntityOps T) (cm : Option CacheModel) (id : Nat) (data : P)
    (c : Cache) (msg : String) (hu : st.update id data = .error msg) :
    (∀ f, st.findOneBy id = .ok (some f) →
      GenericRepository.updateEntity st ops cm id data c =
        (none, c, [.storeUpdate id, .storeFind id, .storeDelete (ops.getId f)]))
    ∧ (st.findOneBy id = .ok none →
      GenericRepository.updateEntity st ops cm id data c =
        (none, c, [.storeUpdate id, .storeFind id]))
    ∧ (∀ msg2, st.findOneBy id = .error msg2 →
      GenericRepository.updateEntity st ops cm id data c =
        (none, c, [.storeUpdate id, .storeFind id])) := by
  refine ⟨fun f hf => ?_, fun hf => ?_, fun msg2 hf => ?_⟩
  · exact GenericRepository.updateEntity_uerr_found st ops cm id data c msg f hu hf
  · exact GenericRepository.updateEntity_uerr_notfound st ops cm id data c msg hu hf
  · exact GenericRepository.updateEntity_uerr_finderr st ops cm id data c msg msg2 hu hf

/-- Witness for C1: concrete store where the update on id 1 throws; the
entity 5 is still found, so exactly one delete for id 5 is issued; in
the store where nothing is found, no delete is issued. -/
theorem updateEntity_failedUpdate_compensates_witness :
    stUpdThrow.update 1 () = .error "update failed"
    ∧ stUpdThrow.findOneBy 1 = .ok (some 5)
    ∧ GenericRepository.updateEntity stUpdThrow natOps none 1 () [] =
        (none, [], [.storeUpdate 1, .storeFind 1, .storeDelete 5])
    ∧ GenericRepository.updateEntity stUpdThrowGone natOps none 1 () [] =
        (none, [], [.storeUpdate 1, .storeFind 1]) :=
  ⟨rfl, rfl,
    (updateEntity_failedUpdate_compensates stUpdThrow natOps none 1 () []
      "update failed" rfl).1 5 rfl,
    (updateEntity_failedUpdate_compensates stUpdThrowGone natOps none 1 () []
      "update failed" rfl).2.1 rfl⟩

/-- Claim C2: with the cache key absent, createEntity(E, C) persists E
and caches the serialized INPUT entity; an immediately following
findEntityById(E.id, C) is a cache hit returning exactly that input
entity E — not the entity as persisted by the store. -/
theorem createThenFind_returns_input_verbatim {T P : Type} (st : Store T P)
    (ops : EntityOps T) (m : CacheModel) (e p : T) (c : Cache)
    (hmiss : cacheGet c m.key = none) (hsave : st.save e = .ok p)
    (hrt : ops.deserEnt (ops.serEnt e) = some e) :
    GenericRepository.createEntity st ops (some m) e c =
      (some p, cacheSet c m.key (ops.serEnt e),
        [.storeSave, .cacheGet m.key,
          .cacheSet m.key (ops.serEnt e) m.expiration])
    ∧ GenericRepository.findEntityById st ops (some m) (ops.getId e)
        (cacheSet c m.key (ops.serEnt e)) =
      (some e, cacheSet c m.key (ops.serEnt e), [.cacheGet m.key]) := by
  constructor
  · simp [GenericRepository.createEntity, hsave, hmiss]
  · simp [GenericRepository.findEntityById, cacheGet_cacheSet_self, hrt]

/-- Witness for C2: the store persists 5 as 7 (a store-assigned value),
yet the read-back through the cache returns the input 5 verbatim. -/
theorem createThenFind_returns_input_verbatim_witness :
    cacheGet [] "k" = none
    ∧ stMutSave.save 5 = .ok 7
    ∧ natOps.deserEnt (natOps.serEnt 5) = some 5
    ∧ GenericRepository.createEntity stMutSave natOps
        (some (CacheModel.mk "k" 60)) 5 [] =
      (some 7, [("k", "xxxxx")],
        [.storeSave, .cacheGet "k", .cacheSet "k" "xxxxx" 60])
    ∧ GenericRepository.findEntityById stMutSave natOps
        (some (CacheModel.mk "k" 60)) 5 [("k", "xxxxx")] =
      (some 5, [("k", "xxxxx")], [.cacheGet "k"]) := by
  refine ⟨rfl, rfl, by decide, ?_, ?_⟩
  · exact (createThenFind_returns_input_verbatim stMutSave natOps
      (CacheModel.mk "k" 60) 5 7 [] rfl rfl (by decide)).1
  · exact (createThenFind_returns_input_verbatim stMutSave natOps
      (CacheModel.mk "k" 60) 5 7 [] rfl rfl (by decide)).2

/-- Claim C3: every generic-repository operation called without a
cacheModel leaves the cache state unchanged and performs no
cache-facade call at all (no get, set, or delete) — it goes only to the
backing store.  Stated for all six operations at once. -/
theorem omitted_cacheModel_bypasses_cache {T P : Type} (st : Store T P)
    (ops : EntityOps T) (e : T) (id : Nat) (data : P) (skip tak : Nat)
    (c : Cache) :
    cacheUntouched (GenericRepository.createEntity st ops none e c) c
    ∧ cacheUntouched (GenericRepository.findEntityById st ops none id c) c
    ∧ cacheUntouched (GenericRepository.updateEntity st ops none id data c) c
    ∧ cacheUntouched (GenericRepository.deleteEntity st none id c) c
    ∧ cacheUntouched (GenericRepository.getAllEntities st ops none c) c
    ∧ cacheUntouched (GenericRepository.getEntitiesWithPagination st ops none skip tak c) c := by
  refine ⟨?_, ?_, ?_, ?_, ?_, ?_⟩
  · cases h : st.save e <;>
      simp [GenericRepository.createEntity, h, cacheUntouched, Eff.isCacheOp]
  · cases h : st.findOneBy id with
    | error m =>
      simp [GenericRepository.findEntityById, h, cacheUntouched, Eff.isCacheOp]
    | ok o =>
      cases o <;>
        simp [GenericRepository.findEntityById, h, cacheUntouched, Eff.isCacheOp]
  · cases hu : st.update id data with
    | error m =>
      cases hf : st.findOneBy id with
      | error m2 =>
        simp [GenericRepository.updateEntity_uerr_finderr st ops none id data c m m2 hu hf,
          cacheUntouched, Eff.isCacheOp]
      | ok o =>
        cases o with
        | none =>
          simp [GenericRepository.updateEntity_uerr_notfound st ops none id data c m hu hf,
            cacheUntouched, Eff.isCacheOp]
        | some f =>
          simp [GenericRepository.updateEntity_uerr_found st ops none id data c m f hu hf,
            cacheUntouched, Eff.isCacheOp]
    | ok u =>
      cases hf : st.findOneBy id with
      | error m2 =>
        simp [GenericRepository.updateEntity, hu,
          GenericRepository.findEntityById_none_err st ops id c m2 hf,
          GenericRepository.updateRollback_err st ops id c _ m2 hf,
          cacheUntouched, Eff.isCacheOp]
      | ok o =>
        cases o with
        | none =>
          simp [GenericRepository.updateEntity, hu,
            GenericRepository.findEntityById_none_notfound st ops id c hf,
            GenericRepository.updateRollback_notfound st ops id c _ hf,
            cacheUntouched, Eff.isCacheOp]
        | some f =>
          simp [GenericRepository.updateEntity, hu,
            GenericRepository.findEntityById_none_found st ops id c f hf,
            cacheUntouched, Eff.isCacheOp]
  · obtain ⟨b, hb⟩ := GenericRepository.deleteEntity_none_shape st id c
    simp [hb, cacheUntouched, Eff.isCacheOp]
  · cases h : st.find <;>
      simp [GenericRepository.getAllEntities, h, cacheUntouched, Eff.isCacheOp]
  · cases h : st.findAndCount skip tak <;>
      simp [GenericRepository.getEntitiesWithPagination, h, cacheUntouched, Eff.isCacheOp]

/-- Claim C4: deleteEntity returns false (with no cache eviction) when
the store reports zero affected rows or throws; the cache delete
happens only on an affected count of at least 1 and only with a
cacheModel present. -/
theorem deleteEntity_zeroAffected_returns_false {T P : Type} (st : Store T P)
    (cm : Option CacheModel) (id : Nat) (c : Cache) :
    (st.delete id = .ok 0 →
      GenericRepository.deleteEntity st cm id c = (false, c, [.storeDelete id]))
    ∧ (∀ msg, st.delete id = .error msg →
      GenericRepository.deleteEntity st cm id c = (false, c, [.storeDelete id]))
    ∧ (∀ a m, st.delete id = .ok a → a ≠ 0 → cm = some m →
      GenericRepository.deleteEntity st cm id c =
        (true, cacheDel c m.key, [.storeDelete id, .cacheDelete m.key])) := by
  refine ⟨fun h => ?_, fun msg h => ?_, fun a m h ha hm => ?_⟩
  · simp [GenericRepository.deleteEntity, h]
  · simp [GenericRepository.deleteEntity, h]
  · subst hm; simp [GenericRepository.deleteEntity, h, ha]

/-- Witness for C4: a store reporting zero affected rows yields false
and leaves a populated cache alone, even with a cacheModel given. -/
theorem deleteEntity_zeroAffected_returns_false_witness :
    stDelZero.delete 1 = .ok 0
    ∧ GenericRepository.deleteEntity stDelZero
        (some (CacheModel.mk "k" 60)) 1 [("k", "5")] =
      (false, [("k", "5")], [.storeDelete 1]) :=
  ⟨rfl,
    (deleteEntity_zeroAffected_returns_false stDelZero
      (some (CacheModel.mk "k" 60)) 1 [("k", "5")]).1 rfl⟩

/-- Claim C5: getEntitiesWithPagination with a cacheModel and a cache
miss queries the store with skip and take and returns the data/count
pair without writing anything to the cache (its trace has one cache get
and no cache set), unlike the other cached read paths. -/
theorem pagination_cacheMiss_does_not_populate {T P : Type} (st : Store T P)
    (ops : EntityOps T) (m : CacheModel) (skip tak : Nat) (c : Cache)
    (d : List T) (n : Nat) (hmiss : cacheGet c m.key = none)
    (hq : st.findAndCount skip tak = .ok (d, n)) :
    GenericRepository.getEntitiesWithPagination st ops (some m) skip tak c =
      (.ok (d, n), c, [.cacheGet m.key, .storeFindAndCount skip tak]) := by
  simp [GenericRepository.getEntitiesWithPagination, hmiss, hq]

/-- Witness for C5: skip 0 take 10 on an empty cache returns the store
rows and count, and the final cache is still empty. -/
theorem pagination_cacheMiss_does_not_populate_witness :
    cacheGet [] "pg" = none
    ∧ stPage.findAndCount 0 10 = .ok ([3], 7)
    ∧ GenericRepository.getEntitiesWithPagination stPage natOps
        (some (CacheModel.mk "pg" 60)) 0 10 [] =
      (.ok ([3], 7), [], [.cacheGet "pg", .storeFindAndCount 0 10]) :=
  ⟨rfl, rfl,
    pagination_cacheMiss_does_not_populate stPage natOps
      (CacheModel.mk "pg" 60) 0 10 [] [3] 7 rfl rfl⟩

/-- Serializer / id accessor for the User entity in service-level
witnesses (serialization is only recorded in traces there). -/
def userOpsW : EntityOps User :=
  ⟨User.id, fun u => u.username, fun _ => none, fun _ => "",
    fun _ => none, fun _ => none⟩

/-- Witness environment: every external collaborator succeeds; the
store assigns id 42 on save and preserves all fields. -/
def envOk : UserEnv :=
  ⟨fun _ _ _ => .ok (), fun _ _ => .ok (some "tok"), fun _ _ => .ok (),
    fun _ => .ok (), fun _ _ _ => .ok (), fun pw => .ok ("enc-" ++ pw)⟩

/-- Witness environment: the Cognito registration call rejects; all
other collaborators succeed. -/
def envRegFail : UserEnv :=
  ⟨fun _ _ _ => .error "Cognito register error", fun _ _ => .ok none,
    fun _ _ => .ok (), fun _ => .ok (), fun _ _ _ => .ok (),
    fun pw => .ok ("enc-" ++ pw)⟩

/-- Witness user store: save assigns id 42 and keeps all fields. -/
def ustOk : UserStore :=
  ⟨⟨fun u => .ok (User.mk 42 u.username u.password u.email),
    fun _ => .ok none, fun _ _ => .ok (), fun _ => .ok 1, .ok [],
    fun _ _ => .ok ([], 0)⟩, fun _ => .ok none⟩

/-- The Except value is a success, or exactly the given fixed error. -/
def okOrMsg {α : Type} (x : Except String α) (msg : String) : Prop :=
  (∃ r, x = Except.ok r) ∨ x = Except.error msg

/-- Claim C6: when identity-provider registration, password encryption
and persistence succeed, UserService.save returns the persisted entity
for the input with password replaced by the encrypted value (username
and email passed through unchanged), and the trace contains no
compensating action: no cache delete, no store delete (and the code has
no identity-provider rollback call to record at all). -/
theorem save_success_no_compensation (env : UserEnv) (ust : UserStore)
    (ops : EntityOps User) (e : User) (cm : Option CacheModel) (c : Cache)
    (enc : String) (p : User)
    (hreg : env.cognitoRegister e.username e.password e.email = .ok ())
    (henc : env.encrypt e.password = .ok enc)
    (hsave : ust.toStore.save (User.mk 0 e.username enc e.email) = .ok p) :
    (UserService.save env ust ops e cm c).1 = .ok (some p)
    ∧ ((UserService.save env ust ops e cm c).2.2.all
        fun x => !x.isCompensating) = true := by
  cases cm with
  | none =>
    simp [UserService.save, AuthenticationService.registerUser, hreg,
      PasswordService.getPasswordEncrypted, henc,
      GenericRepository.createEntity, hsave, Eff.isCompensating]
  | some m =>
    cases hg : cacheGet c m.key <;>
      simp [UserService.save, AuthenticationService.registerUser, hreg,
        PasswordService.getPasswordEncrypted, henc,
        GenericRepository.createEntity, hsave, hg, Eff.isCompensating]

/-- Witness for C6: all collaborators succeed; save returns the
persisted user with the encrypted password and id 42, with no
compensating effect in the trace. -/
theorem save_success_no_compensation_witness :
    envOk.cognitoRegister "john" "pwd123" "john@example.com" = .ok ()
    ∧ envOk.encrypt "pwd123" = .ok "enc-pwd123"
    ∧ ustOk.toStore.save (User.mk 0 "john" "enc-pwd123" "john@example.com") =
        .ok (User.mk 42 "john" "enc-pwd123" "john@example.com")
    ∧ (UserService.save envOk ustOk userOpsW
        (User.mk 0 "john" "pwd123" "john@example.com") none []).1 =
      .ok (some (User.mk 42 "john" "enc-pwd123" "john@example.com"))
    ∧ ((UserService.save envOk ustOk userOpsW
        (User.mk 0 "john" "pwd123" "john@example.com") none []).2.2.all
        fun x => !x.isCompensating) = true :=
  ⟨rfl, rfl, rfl,
    (save_success_no_compensation envOk ustOk userOpsW
      (User.mk 0 "john" "pwd123" "john@example.com") none [] "enc-pwd123"
      (User.mk 42 "john" "enc-pwd123" "john@example.com") rfl rfl rfl).1,
    (save_success_no_compensation envOk ustOk userOpsW
      (User.mk 0 "john" "pwd123" "john@example.com") none [] "enc-pwd123"
      (User.mk 42 "john" "enc-pwd123" "john@example.com") rfl rfl rfl).2⟩

/-- Claim C7: when the Cognito registration call fails (before its
committed flag is set), the only compensating action in the whole
registration workflow is the single cache deletion of
`user:<username>` performed by AuthenticationService.registerUser's
catch block — no identity-provider rollback call and no repository
delete occur, whatever the rest of the workflow does. -/
theorem registration_identityFailure_only_cache_delete (env : UserEnv)
    (ust : UserStore) (ops : EntityOps User) (e : User)
    (cm : Option CacheModel) (c : Cache) (m : String)
    (hreg : env.cognitoRegister e.username e.password e.email = .error m) :
    (UserService.save env ust ops e cm c).2.2.filter
        (fun x => x.isCompensating) =
      [.cacheDelete ("user:" ++ e.username)] := by
  cases henc : env.encrypt e.password with
  | error m2 =>
    simp [UserService.save, AuthenticationService.registerUser, hreg,
      PasswordService.getPasswordEncrypted, henc, Eff.isCompensating]
  | ok enc =>
    cases hsv : ust.toStore.save (User.mk 0 e.username enc e.email) with
    | error m3 =>
      cases cm <;>
        simp [UserService.save, AuthenticationService.registerUser, hreg,
          PasswordService.getPasswordEncrypted, henc,
          GenericRepository.createEntity, hsv, Eff.isCompensating]
    | ok p =>
      cases cm with
      | none =>
        simp [UserService.save, AuthenticationService.registerUser, hreg,
          PasswordService.getPasswordEncrypted, henc,
          GenericRepository.createEntity, hsv, Eff.isCompensating]
      | some mm =>
        cases hg : cacheGet (cacheDel c ("user:" ++ e.username)) mm.key <;>
          simp [UserService.save, AuthenticationService.registerUser, hreg,
            PasswordService.getPasswordEncrypted, henc,
            GenericRepository.createEntity, hsv, hg, Eff.isCompensating]

/-- Witness for C7: with the failing Cognito environment and a
cacheModel supplied, the workflow's compensating actions consist of
exactly the one cache delete of `user:john`. -/
theorem registration_identityFailure_only_cache_delete_witness :
    envRegFail.cognitoRegister "john" "pwd123" "john@example.com" =
      .error "Cognito register error"
    ∧ (UserService.save envRegFail ustOk userOpsW
        (User.mk 0 "john" "pwd123" "john@example.com")
        (some (CacheModel.mk "user:john" 3600)) []).2.2.filter
          (fun x => x.isCompensating) =
      [.cacheDelete "user:john"] :=
  ⟨rfl,
    registration_identityFailure_only_cache_delete envRegFail ustOk userOpsW
      (User.mk 0 "john" "pwd123" "john@example.com")
      (some (CacheModel.mk "user:john" 3600)) [] "Cognito register error" rfl⟩

/-- Counterexample to claim C8 as stated: with a Cognito registration
call that rejects, AuthenticationService.registerUser (the variant
wired to utils/cognitoConfig, the one its unit test exercises) returns
normally — it swallows the error instead of propagating it. -/
theorem registerUser_swallows_failure_counterexample :
    envRegFail.cognitoRegister "testuser" "password123" "test@example.com" =
      .error "Cognito register error"
    ∧ (AuthenticationService.registerUser envRegFail "testuser" "password123"
        "test@example.com" []).1 = .ok () :=
  ⟨rfl, rfl⟩

/-- Claim C8 as amended: authenticateUser and confirmUserRegistration
propagate an underlying Cognito failure to their caller, but
registerUser does not — on a failing provider call it performs the
cache-delete compensation for `user:<username>` and returns normally
(no error value, no partial-success payload). -/
theorem identityProvider_adapter_error_policy (env : UserEnv)
    (u p em cd : String) (c : Cache) :
    (∀ m, env.cognitoRegister u p em = .error m →
      AuthenticationService.registerUser env u p em c =
        (.ok (), cacheDel c ("user:" ++ u),
          [.cogRegister u, .cacheDelete ("user:" ++ u)]))
    ∧ (∀ m, env.cognitoAuthenticate u p = .error m →
      (AuthenticationService.authenticateUser env u p).1 = .error m)
    ∧ (∀ m, env.cognitoConfirm u cd = .error m →
      (AuthenticationService.confirmUserRegistration env u cd).1 = .error m) := by
  refine ⟨fun m hm => ?_, fun m hm => ?_, fun m hm => ?_⟩
  · simp [AuthenticationService.registerUser, hm]
  · simp [AuthenticationService.authenticateUser, hm]
  · simp [AuthenticationService.confirmUserRegistration, hm]

/-- Witness for the amended C8: a concrete failing registration leaves
an ok result and evicts the pre-existing `user:u` cache entry. -/
theorem identityProvider_adapter_error_policy_witness :
    envRegFail.cognitoRegister "u" "p" "e" = .error "Cognito register error"
    ∧ AuthenticationService.registerUser envRegFail "u" "p" "e"
        [("user:u", "cached")] =
      (.ok (), [], [.cogRegister "u", .cacheDelete "user:u"]) :=
  ⟨rfl,
    (identityProvider_adapter_error_policy envRegFail "u" "p" "e" "cd"
      [("user:u", "cached")]).1 "Cognito register error" rfl⟩

/-- Claim C9: each top-level UserService workflow either succeeds or
raises its fixed, workflow-specific generic message; no underlying
cause ever reaches the caller. -/
theorem workflows_raise_fixed_generic_errors (env : UserEnv)
    (ust : UserStore) (ops : EntityOps User) (e : User)
    (cm : Option CacheModel) (c : Cache) (u p newPw cd : String) :
    okOrMsg (UserService.save env ust ops e cm c).1 "Registration failed"
    ∧ okOrMsg (UserService.confirmRegistration env u cd).1
        "User confirmation failed"
    ∧ okOrMsg (UserService.authenticate env ust ops u p c).1
        "Authentication failed: Invalid username or password"
    ∧ okOrMsg (UserService.initiatePasswordReset env u).1
        "Failed to initiate password reset"
    ∧ okOrMsg (UserService.completePasswordReset env ust ops u newPw cd c).1
        "Failed to complete password reset" := by
  refine ⟨?_, ?_, ?_, ?_, ?_⟩
  · cases hr : env.cognitoRegister e.username e.password e.email with
    | error m =>
      cases henc : env.encrypt e.password with
      | error m2 =>
        right
        simp [UserService.save, AuthenticationService.registerUser, hr,
          PasswordService.getPasswordEncrypted, henc]
      | ok enc =>
        rcases h3 : GenericRepository.createEntity ust.toStore ops cm
            (User.mk 0 e.username enc e.email)
            (cacheDel c ("user:" ++ e.username)) with ⟨r, c2, t3⟩
        left
        exact ⟨r, by
          simp [UserService.save, AuthenticationService.registerUser, hr,
            PasswordService.getPasswordEncrypted, henc, h3]⟩
    | ok rr =>
      cases henc : env.encrypt e.password with
      | error m2 =>
        right
        simp [UserService.save, AuthenticationService.registerUser, hr,
          PasswordService.getPasswordEncrypted, henc]
      | ok enc =>
        rcases h3 : GenericRepository.createEntity ust.toStore ops cm
            (User.mk 0 e.username enc e.email) c with ⟨r, c2, t3⟩
        left
        exact ⟨r, by
          simp [UserService.save, AuthenticationService.registerUser, hr,
            PasswordService.getPasswordEncrypted, henc, h3]⟩
  · cases hc : env.cognitoConfirm u cd with
    | error m =>
      right
      simp [UserService.confirmRegistration,
        AuthenticationService.confirmUserRegistration, hc]
    | ok rr =>
      left
      exact ⟨(), by
        simp [UserService.confirmRegistration,
          AuthenticationService.confirmUserRegistration, hc]⟩
  · cases ha : env.cognitoAuthenticate u p with
    | error m =>
      right
      simp [UserService.authenticate, AuthenticationService.authenticateUser, ha]
    | ok o =>
      cases o with
      | none =>
        right
        simp [UserService.authenticate, AuthenticationService.authenticateUser, ha]
      | some tok =>
        cases hg : cacheGet c ("user:" ++ u) with
        | some s =>
          cases hd : ops.deserEnt s with
          | some x =>
            left
            exact ⟨tok, by
              simp [UserService.authenticate,
                AuthenticationService.authenticateUser, ha, hg, hd]⟩
          | none =>
            right
            simp [UserService.authenticate,
              AuthenticationService.authenticateUser, ha, hg, hd]
        | none =>
          cases hf : ust.findByUsername u with
          | error m2 =>
            right
            simp [UserService.authenticate,
              AuthenticationService.authenticateUser, ha, hg,
              UserRepository.findUserByUsername, hf]
          | ok o2 =>
            cases o2 with
            | none =>
              right
              simp [UserService.authenticate,
                AuthenticationService.authenticateUser, ha, hg,
                UserRepository.findUserByUsername, hf]
            | some x =>
              left
              exact ⟨tok, by
                simp [UserService.authenticate,
                  AuthenticationService.authenticateUser, ha, hg,
                  UserRepository.findUserByUsername, hf]⟩
  · cases hi : env.cognitoInitiate u with
    | error m =>
      right
      simp [UserService.initiatePasswordReset,
        PasswordService.initiateUserPasswordReset, hi]
    | ok rr =>
      left
      exact ⟨(), by
        simp [UserService.initiatePasswordReset,
          PasswordService.initiateUserPasswordReset, hi]⟩
  · by_cases hv : (u = "" ∨ newPw = "" ∨ cd = "")
    · right
      simp [UserService.completePasswordReset, hv]
    · cases hcc : env.cognitoComplete u newPw cd with
      | error m =>
        right
        simp [UserService.completePasswordReset, hv,
          PasswordService.completeUserPasswordReset, hcc]
      | ok rr =>
        cases henc : env.encrypt newPw with
        | error m2 =>
          right
          simp [UserService.completePasswordReset, hv,
            PasswordService.completeUserPasswordReset, hcc,
            PasswordService.getPasswordEncrypted, henc]
        | ok enc =>
          cases hf : ust.findByUsername u with
          | error m3 =>
            right
            simp [UserService.completePasswordReset, hv,
              PasswordService.completeUserPasswordReset, hcc,
              PasswordService.getPasswordEncrypted, henc,
              UserRepository.findUserByUsername, hf]
          | ok o =>
            cases o with
            | none =>
              right
              simp [UserService.completePasswordReset, hv,
                PasswordService.completeUserPasswordReset, hcc,
                PasswordService.getPasswordEncrypted, henc,
                UserRepository.findUserByUsername, hf]
            | some x =>
              rcases h3 : GenericRepository.updateEntity ust.toStore ops none
                  x.id enc c with ⟨r, c2, t3⟩
              left
              exact ⟨(), by
                simp [UserService.completePasswordReset, hv,
                  PasswordService.completeUserPasswordReset, hcc,
                  PasswordService.getPasswordEncrypted, henc,
                  UserRepository.findUserByUsername, hf, h3]⟩

/-- Claim C10: on updateEntity's rollback path with a cacheModel
supplied by the caller, the compensating delete is issued without the
cacheModel, so the whole cache survives unchanged: the caller's key is
neither refreshed nor evicted while the backing-store row is deleted. -/
theorem update_rollback_leaves_stale_cache {T P : Type} (st : Store T P)
    (ops : EntityOps T) (m : CacheModel) (id : Nat) (data : P) (c : Cache)
    (msg : String) (f : T) (hu : st.update id data = .error msg)
    (hf : st.findOneBy id = .ok (some f)) :
    GenericRepository.updateEntity st ops (some m) id data c =
      (none, c, [.storeUpdate id, .storeFind id, .storeDelete (ops.getId f)])
    ∧ cacheGet (GenericRepository.updateEntity st ops (some m) id data c).2.1 m.key
      = cacheGet c m.key := by
  have h := GenericRepository.updateEntity_uerr_found st ops (some m) id data c msg f hu hf
  exact ⟨h, by rw [h]⟩

/-- Witness for C10: the caller's cache key holds a stale serialization
of entity 5; after the failed update the row is deleted but the cache
entry is untouched. -/
theorem update_rollback_leaves_stale_cache_witness :
    stUpdThrow.update 1 () = .error "update failed"
    ∧ stUpdThrow.findOneBy 1 = .ok (some 5)
    ∧ GenericRepository.updateEntity stUpdThrow natOps
        (some (CacheModel.mk "k" 60)) 1 () [("k", "5")] =
      (none, [("k", "5")], [.storeUpdate 1, .storeFind 1, .storeDelete 5])
    ∧ cacheGet (GenericRepository.updateEntity stUpdThrow natOps
        (some (CacheModel.mk "k" 60)) 1 () [("k", "5")]).2.1 "k" = some "5" :=
  ⟨rfl, rfl,
    (update_rollback_leaves_stale_cache stUpdThrow natOps
      (CacheModel.mk "k" 60) 1 () [("k", "5")] "update failed" 5 rfl rfl).1,
    by
      rw [(update_rollback_leaves_stale_cache stUpdThrow natOps
        (CacheModel.mk "k" 60) 1 () [("k", "5")] "update failed" 5 rfl rfl).2]
      rfl⟩
